import Mathlib

/-!
Shallow embedding of the product-image pipeline
(backend/langgraph_pipeline.py) and verification of its specification.

Python floats are modelled as exact rationals, Python strings as Lean
strings (operated on as character lists so that everything reduces in the
kernel), and the external collaborators (video fetcher, video decoder,
vision-analysis service) as oracle parameters.  A stage that catches an
exception coming from a collaborator receives that exception as an
explicit value from the oracle.
-/

namespace Pipeline

/-! ### Python string primitives

The source manipulates URLs with the Python operations `sub in s`,
`s.split(sep)[0]`, `s.split(sep)[1]`, `s.lower()`, `s[:n]` and
`s.replace(a, b)`.  For a non-empty separator, `s.split(sep)[0]` is the
text before the first occurrence of `sep` (all of `s` when absent) and
`s.split(sep)[1]` is the text strictly between the first and second
occurrences (to the end when `sep` occurs once).  These are implemented
below by structural recursion on character lists. -/

/-- If the first list is a prefix of the second, return the rest of the
second list; otherwise return none. -/
def stripPre : List Char → List Char → Option (List Char)
  | [], l => some l
  | _ :: _, [] => none
  | c :: cs, d :: ds => if c = d then stripPre cs ds else none

/-- The characters strictly after the first occurrence of the separator,
or none when the separator does not occur. -/
def afterFirst (sep : List Char) : List Char → Option (List Char)
  | [] => stripPre sep []
  | c :: rest =>
    match stripPre sep (c :: rest) with
    | some r => some r
    | none => afterFirst sep rest

/-- The characters strictly before the first occurrence of the separator;
the whole list when the separator does not occur. -/
def beforeFirst (sep : List Char) : List Char → List Char
  | [] => []
  | c :: rest =>
    match stripPre sep (c :: rest) with
    | some _ => []
    | none => c :: beforeFirst sep rest

/-- Python substring containment for a non-empty needle. -/
def pyContains (needle hay : String) : Bool :=
  (afterFirst needle.toList hay.toList).isSome

/-- Python s.split(sep)[0] for a non-empty separator. -/
def pySplitHead (s sep : String) : String :=
  (beforeFirst sep.toList s.toList).asString

/-- Python s.split(sep)[1] for a non-empty separator that occurs in s
(the only way the source uses it): the segment between the first and the
second occurrence of the separator. -/
def pySplitSecond (s sep : String) : String :=
  match afterFirst sep.toList s.toList with
  | some r => (beforeFirst sep.toList r).asString
  | none => ""

/-- Python s.lower(), on the ASCII alphabet the source uses. -/
def pyLower (s : String) : String :=
  (s.toList.map Char.toLower).asString

/-- Python s[:n] (the first n characters). -/
def pyTake (n : Nat) (s : String) : String :=
  (s.toList.take n).asString

/-- Python name.replace(" ", "_"), used to build file paths. -/
def pathSafeName (s : String) : String :=
  (s.toList.map (fun c => if c = ' ' then '_' else c)).asString

/-- Python int(q): truncation of a rational toward zero. -/
def pyInt (q : ℚ) : ℤ :=
  if q < 0 then -⌊-q⌋ else ⌊q⌋

/-! ### Data model -/

/-- ProductInfo dataclass of the source.  enhanced_images defaults to the
empty list via the dataclass post-init hook. -/
structure ProductInfo where
  name : String
  confidence : ℚ
  description : String
  timestamp : ℚ
  frame_image_path : String := ""
  segmented_image_path : String := ""
  enhanced_images : List String := []
  deriving Repr, DecidableEq

/-- One frame dictionary appended by the frame-extraction stage. -/
structure FrameRec where
  frame_number : Nat
  timestamp : ℚ
  image_path : String
  products_detected : List ProductInfo
  deriving Repr, DecidableEq

/-- The mutable State threaded through the five stage nodes. -/
structure PState where
  url : String
  video_id : String
  video_path : String
  frames : List FrameRec
  products : List ProductInfo
  error : Option String
  deriving Repr, DecidableEq

/-- The initial state built by process_video. -/
def initState (url : String) : PState :=
  { url := url, video_id := "", video_path := "", frames := [],
    products := [], error := none }

/-! ### Stage 1: video acquisition -/

/-- _extract_video_id: pattern-match three known URL shapes; any other
shape yields the sentinel "unknown". -/
def extractVideoId (url : String) : String :=
  if pyContains "youtube.com/watch?v=" url then
    pySplitHead (pySplitSecond url "v=") "&"
  else if pyContains "youtube.com/shorts/" url then
    pySplitHead (pySplitSecond url "shorts/") "?"
  else if pyContains "youtu.be/" url then
    pySplitHead (pySplitSecond url "youtu.be/") "?"
  else
    "unknown"

/-- _extract_video: set video_id and video_path on the state, then
download the video unless the file already exists.  A download exception
(supplied by the fetch oracle as some message) is caught and recorded in
error; the id and path assignments made before it persist. -/
def extractVideo (fileExists : Bool) (fetchErr : Option String) (s : PState) :
    PState :=
  let vid := extractVideoId s.url
  let s1 := { s with video_id := vid,
                     video_path := "output/video_" ++ vid ++ ".mp4" }
  if fileExists then s1
  else
    match fetchErr with
    | none => s1
    | some e => { s1 with error := some ("Video extraction failed: " ++ e) }

/-! ### Stage 2: frame extraction

The decoder collaborator (cv2.VideoCapture) is modelled by its two
observable outputs, the reported frame rate and the number of frames the
stream yields before exhaustion.  On an unopenable file cv2 reports a
frame rate of 0 and yields no frames; the source then raises a
ZeroDivisionError at the duration computation, caught by the stage.  The
source computes the stride as int(fps * 2); when that is 0 and at least
one frame is read, the modulo in the loop raises, again caught by the
stage.  Either exception leaves the frames field untouched. -/

/-- frame_interval = int(fps * 2). -/
def frameStride (fps : ℚ) : Nat :=
  (pyInt (fps * 2)).toNat

/-- The frame records appended by the sampling loop: every decoded frame
index that is an exact multiple of the stride, in order, with timestamp
frame_number / fps. -/
def sampleFrames (vid : String) (fps : ℚ) (stride : Nat) (count : Nat) :
    List FrameRec :=
  ((List.range count).filter (fun n => n % stride == 0)).map (fun n =>
    { frame_number := n
      timestamp := (n : ℚ) / fps
      image_path := "output/frame_" ++ vid ++ "_" ++ toString n ++ ".jpg"
      products_detected := [] })

/-- _extract_frames. -/
def extractFrames (fps : ℚ) (count : Nat) (s : PState) : PState :=
  if fps = 0 then
    { s with error := some "Frame extraction failed: float division by zero" }
  else if frameStride fps = 0 then
    if count = 0 then { s with frames := [] }
    else
      { s with
        error := some "Frame extraction failed: integer modulo by zero" }
  else
    { s with frames := sampleFrames s.video_id fps (frameStride fps) count }

/-! ### Stage 3: product identification -/

/-- One structured detection candidate of the expected JSON shape. -/
structure Candidate where
  name : String
  confidence : ℚ
  description : String
  is_good_frame : Bool
  deriving Repr, DecidableEq

/-- The vision collaborator response for one frame: either it parses as
the expected structure (carrying the products list, defaulted to empty
when the key is absent), or json.loads raises and only the raw text is
available. -/
inductive VisionResponse where
  | parsed (products : List Candidate)
  | unparsed (raw : String)
  deriving Repr, DecidableEq

/-- The ProductInfo built from an accepted candidate: the timestamp is
the processed frame's timestamp, paths start empty. -/
def candidateToProduct (c : Candidate) (ts : ℚ) : ProductInfo :=
  { name := c.name, confidence := c.confidence,
    description := c.description, timestamp := ts }

/-- The loop over result["products"]: keep a candidate iff
is_good_frame and confidence > 0.5. -/
def detectParsed : List Candidate → ℚ → List ProductInfo
  | [], _ => []
  | c :: cs, ts =>
    if c.is_good_frame && decide ((1 : ℚ)/2 < c.confidence) then
      candidateToProduct c ts :: detectParsed cs ts
    else
      detectParsed cs ts

/-- The fixed keyword set scanned by the fallback heuristic. -/
def fallbackKeywords : List String :=
  ["product", "item", "object", "thing", "device", "tool", "cosmetic",
   "makeup", "phone", "laptop", "book", "food", "drink"]

/-- Whether any fallback keyword occurs in the lowercased raw response. -/
def fallbackFires (raw : String) : Bool :=
  fallbackKeywords.any (fun w => pyContains w (pyLower raw))

/-- The single ProductInfo synthesized by the fallback branch. -/
def fallbackProduct (raw : String) (ts : ℚ) : ProductInfo :=
  { name := "Detected Product", confidence := 3/5,
    description := pyTake 200 raw, timestamp := ts }

/-- The products appended while processing one frame. -/
def detectInFrame (resp : VisionResponse) (ts : ℚ) : List ProductInfo :=
  match resp with
  | .parsed cs => detectParsed cs ts
  | .unparsed raw =>
    if fallbackFires raw then [fallbackProduct raw ts] else []

/-- The loop of _identify_products over the frames.  The oracle yields,
per frame, either the collaborator response or an exception raised while
opening the image or calling the model; an exception stops the loop,
keeping the mutations already made to earlier frames and to the products
list.  Returns (updated frames, appended products, raised error). -/
def runDetect (oracle : FrameRec → Except String VisionResponse) :
    List FrameRec → List FrameRec × List ProductInfo × Option String
  | [] => ([], [], none)
  | f :: fs =>
    match oracle f with
    | .error e =>
      (f :: fs, [], some ("Product identification failed: " ++ e))
    | .ok resp =>
      let ps := detectInFrame resp f.timestamp
      let f' := { f with products_detected := f.products_detected ++ ps }
      let r := runDetect oracle fs
      (f' :: r.1, ps ++ r.2.1, r.2.2)

/-- _identify_products. -/
def identifyProducts (oracle : FrameRec → Except String VisionResponse)
    (s : PState) : PState :=
  let r := runDetect oracle s.frames
  { s with frames := r.1, products := s.products ++ r.2.1,
           error := match r.2.2 with | some e => some e | none => s.error }

/-! ### Stage 4: product segmentation -/

/-- The in-place mutation applied to a product once a frame matched:
both public-facing paths are set.  int(product.timestamp) truncates. -/
def segmentSet (vid : String) (f : FrameRec) (p : ProductInfo) :
    ProductInfo :=
  { p with
    segmented_image_path :=
      "/output/segmented_" ++ pathSafeName p.name ++ "_" ++
        toString (pyInt p.timestamp) ++ ".jpg"
    frame_image_path :=
      "/output/frame_" ++ vid ++ "_" ++ toString f.frame_number ++ ".jpg" }

/-- The frame-search loop of _segment_products: the first frame (in list
order) whose timestamp is within 1.0 of the product timestamp. -/
def findNearFrame (frames : List FrameRec) (p : ProductInfo) :
    Option FrameRec :=
  frames.find? (fun f => decide (|f.timestamp - p.timestamp| < 1))

/-- The loop of _segment_products over the products.  When no frame
matches, the product is skipped and no collaborator is called, so no
exception can arise from it.  When a frame matches, the oracle may raise
(image open / model call / save), stopping the loop before the product
is mutated. -/
def runSegment (vid : String) (frames : List FrameRec)
    (oracle : ProductInfo → Option String) :
    List ProductInfo → List ProductInfo × Option String
  | [] => ([], none)
  | p :: ps =>
    match findNearFrame frames p with
    | none =>
      let r := runSegment vid frames oracle ps
      (p :: r.1, r.2)
    | some f =>
      match oracle p with
      | some e => (p :: ps, some ("Product segmentation failed: " ++ e))
      | none =>
        let r := runSegment vid frames oracle ps
        (segmentSet vid f p :: r.1, r.2)

/-- _segment_products. -/
def segmentProducts (oracle : ProductInfo → Option String) (s : PState) :
    PState :=
  let r := runSegment s.video_id s.frames oracle s.products
  { s with products := r.1,
           error := match r.2 with | some e => some e | none => s.error }

/-! ### Stage 5: product enhancement -/

/-- The three style-indexed public paths, in the fixed style order
(style indices 1, 2, 3 from enumerate(styles)). -/
def enhancedPaths (p : ProductInfo) : List String :=
  [1, 2, 3].map (fun i =>
    "/output/enhanced_" ++ pathSafeName p.name ++ "_" ++ toString (i : Nat)
      ++ "_" ++ toString (pyInt p.timestamp) ++ ".jpg")

/-- The per-product effect of _enhance_products when no exception is
raised: products with an empty segmented path are skipped; otherwise
enhanced_images is assigned the three style paths. -/
def enhanceOne (p : ProductInfo) : ProductInfo :=
  if p.segmented_image_path = "" then p
  else { p with enhanced_images := enhancedPaths p }

/-- The loop of _enhance_products.  The oracle may raise while loading
the image or producing a style (the enhanced_images assignment happens
only after all three styles), stopping the loop before the product is
mutated. -/
def runEnhance (oracle : ProductInfo → Option String) :
    List ProductInfo → List ProductInfo × Option String
  | [] => ([], none)
  | p :: ps =>
    if p.segmented_image_path = "" then
      let r := runEnhance oracle ps
      (p :: r.1, r.2)
    else
      match oracle p with
      | some e => (p :: ps, some ("Product enhancement failed: " ++ e))
      | none =>
        let r := runEnhance oracle ps
        (enhanceOne p :: r.1, r.2)

/-- _enhance_products. -/
def enhanceProducts (oracle : ProductInfo → Option String) (s : PState) :
    PState :=
  let r := runEnhance oracle s.products
  { s with products := r.1,
           error := match r.2 with | some e => some e | none => s.error }

/-! ### The orchestrator -/

/-- The collaborator behaviors observed during one run. -/
structure Oracles where
  fileExists : Bool
  fetchErr : Option String
  fps : ℚ
  frameCount : Nat
  detect : FrameRec → Except String VisionResponse
  segment : ProductInfo → Option String
  enhance : ProductInfo → Option String

/-- The compiled LangGraph workflow: the five stage nodes chained by
unconditional edges, each handed the state the previous one returned. -/
def runPipeline (o : Oracles) (url : String) : PState :=
  enhanceProducts o.enhance
    (segmentProducts o.segment
      (identifyProducts o.detect
        (extractFrames o.fps o.frameCount
          (extractVideo o.fileExists o.fetchErr (initState url)))))

/-! ### Helper lemmas -/

/-- Membership in the retained-candidates list of one parsed response. -/
lemma mem_detectParsed (cs : List Candidate) (ts : ℚ) (p : ProductInfo) :
    p ∈ detectParsed cs ts ↔
      ∃ c ∈ cs, (c.is_good_frame = true ∧ (1 : ℚ)/2 < c.confidence) ∧
        p = candidateToProduct c ts := by
  induction cs with
  | nil => simp [detectParsed]
  | cons c cs ih =>
    by_cases hg : (c.is_good_frame && decide ((1 : ℚ)/2 < c.confidence)) = true
    · rw [detectParsed, if_pos hg]
      simp only [Bool.and_eq_true, decide_eq_true_eq] at hg
      constructor
      · intro hp
        rcases List.mem_cons.mp hp with h | h
        · exact ⟨c, List.mem_cons_self c cs, ⟨hg.1, hg.2⟩, h⟩
        · rcases ih.mp h with ⟨d, hd, hacc, hpd⟩
          exact ⟨d, List.mem_cons_of_mem c hd, hacc, hpd⟩
      · rintro ⟨d, hd, hacc, hpd⟩
        rcases List.mem_cons.mp hd with rfl | hd
        · exact hpd ▸ List.mem_cons_self _ _
        · exact List.mem_cons_of_mem _ (ih.mpr ⟨d, hd, hacc, hpd⟩)
    · rw [detectParsed, if_neg hg, ih]
      constructor
      · rintro ⟨d, hd, hacc, hpd⟩
        exact ⟨d, List.mem_cons_of_mem c hd, hacc, hpd⟩
      · rintro ⟨d, hd, hacc, hpd⟩
        rcases List.mem_cons.mp hd with rfl | hd
        · refine absurd ?_ hg
          simp only [hacc.1, Bool.true_and, decide_eq_true_eq]
          exact hacc.2
        · exact ⟨d, hd, hacc, hpd⟩

/-! ### Claim C8 -/

/-- Claim C8: video-identifier extraction maps the three known URL shapes
to the embedded id (watch-link with query parameters, shorts path with
trailing query, shortened-domain path) and every URL containing none of
the three markers to the sentinel "unknown". -/
theorem c8_url_extraction :
    extractVideoId "https://www.youtube.com/watch?v=XYZ&t=5" = "XYZ" ∧
    extractVideoId "https://www.youtube.com/shorts/XYZ?x=1" = "XYZ" ∧
    extractVideoId "https://youtu.be/XYZ" = "XYZ" ∧
    ∀ url : String,
      pyContains "youtube.com/watch?v=" url = false →
      pyContains "youtube.com/shorts/" url = false →
      pyContains "youtu.be/" url = false →
      extractVideoId url = "unknown" := by
  refine ⟨by decide, by decide, by decide, fun url h1 h2 h3 => ?_⟩
  simp [extractVideoId, h1, h2, h3]

/-- Witness for C8: a URL of unrecognized shape yields the sentinel. -/
theorem c8_url_extraction_witness :
    extractVideoId "https://example.com/video" = "unknown" :=
  c8_url_extraction.2.2.2 "https://example.com/video"
    (by decide) (by decide) (by decide)

/-! ### Claim C3 -/

/-- Counterexample to C3 as stated: for the source URL that ends right
after the watch marker, Acquisition succeeds (the video file already
exists, so no download is attempted and no error is set) yet the derived
video id is the empty string. -/
theorem c3_counterexample :
    (extractVideo true none
        (initState "https://www.youtube.com/watch?v=")).error = none ∧
    (extractVideo true none
        (initState "https://www.youtube.com/watch?v=")).video_id = "" := by
  decide

/-- Claim C3, amended: after Acquisition succeeds the video id equals the
value extracted from the URL; for a URL matching none of the three known
shapes this is the sentinel "unknown", which is non-empty, but for a
recognized shape whose id segment is empty the video id is empty. -/
theorem c3_amended (fe : Bool) (ferr : Option String) (s : PState)
    (_h : (extractVideo fe ferr s).error = none) :
    (extractVideo fe ferr s).video_id = extractVideoId s.url ∧
    (pyContains "youtube.com/watch?v=" s.url = false →
     pyContains "youtube.com/shorts/" s.url = false →
     pyContains "youtu.be/" s.url = false →
     (extractVideo fe ferr s).video_id = "unknown" ∧
     (extractVideo fe ferr s).video_id ≠ "") := by
  have hid : (extractVideo fe ferr s).video_id = extractVideoId s.url := by
    cases fe <;> cases ferr <;> simp [extractVideo]
  refine ⟨hid, fun h1 h2 h3 => ?_⟩
  rw [hid]
  simp [extractVideoId, h1, h2, h3]

/-- Witness for C3 amended, at a URL of unrecognized shape. -/
theorem c3_amended_witness :
    (extractVideo true none (initState "https://example.com/x")).video_id
      = "unknown" :=
  ((c3_amended true none (initState "https://example.com/x")
      (by decide)).2 (by decide) (by decide) (by decide)).1

/-! ### Claim C4 -/

/-- Claim C4: a structured candidate becomes a ProductRecord iff its
is_good_frame flag is true and its confidence is strictly greater than
0.5; a candidate with confidence exactly 0.5 is rejected. -/
theorem c4_threshold (cs : List Candidate) (ts : ℚ) :
    (∀ p : ProductInfo,
        p ∈ detectParsed cs ts ↔
          ∃ c ∈ cs, (c.is_good_frame = true ∧ (1 : ℚ)/2 < c.confidence) ∧
            p = candidateToProduct c ts) ∧
    (∀ c : Candidate, c.confidence = 1/2 → detectParsed [c] ts = []) := by
  refine ⟨fun p => mem_detectParsed cs ts p, fun c hc => ?_⟩
  simp [detectParsed, hc]

/-- Witness for C4: a clearly framed candidate at confidence exactly 0.5
is rejected. -/
theorem c4_threshold_witness :
    detectParsed
      [{ name := "Widget", confidence := 1/2, description := "d",
         is_good_frame := true }] 0 = [] :=
  (c4_threshold
    [{ name := "Widget", confidence := 1/2, description := "d",
       is_good_frame := true }] 0).2
    { name := "Widget", confidence := 1/2, description := "d",
      is_good_frame := true } rfl

/-! ### Claim C5 -/

/-- Claim C5: the fallback fires only when structured parsing fails; when
a keyword occurs in the (lowercased) raw text it synthesizes exactly one
ProductRecord with the fixed placeholder name, confidence exactly 0.6 and
description equal to the first 200 characters of the raw response; a
successfully parsed response only ever yields candidate-derived records,
never the fallback. -/
theorem c5_fallback (raw : String) (ts : ℚ) (cs : List Candidate) :
    (fallbackFires raw = true →
      detectInFrame (.unparsed raw) ts = [fallbackProduct raw ts] ∧
      (fallbackProduct raw ts).name = "Detected Product" ∧
      (fallbackProduct raw ts).confidence = 3/5 ∧
      (fallbackProduct raw ts).description = pyTake 200 raw) ∧
    (fallbackFires raw = false → detectInFrame (.unparsed raw) ts = []) ∧
    (∀ p ∈ detectInFrame (.parsed cs) ts,
        ∃ c ∈ cs, p = candidateToProduct c ts) := by
  refine ⟨fun h => ⟨by simp [detectInFrame, h], rfl, rfl, rfl⟩,
          fun h => by simp [detectInFrame, h], fun p hp => ?_⟩
  rcases (mem_detectParsed cs ts p).mp hp with ⟨c, hc, _, hpc⟩
  exact ⟨c, hc, hpc⟩

/-- Witness for C5: an unparsable response mentioning a keyword yields
exactly the one synthesized record. -/
theorem c5_fallback_witness :
    detectInFrame (.unparsed "I see a product here") 0 =
      [fallbackProduct "I see a product here" 0] :=
  ((c5_fallback "I see a product here" 0 []).1 (by decide)).1

/-- First-match characterization of the find loop. -/
lemma find?_first {α : Type} (p : α → Bool) (l : List α) (a : α)
    (h : l.find? p = some a) :
    p a = true ∧ ∃ l1 l2, l = l1 ++ a :: l2 ∧ ∀ x ∈ l1, p x = false := by
  induction l with
  | nil => simp [List.find?] at h
  | cons b l ih =>
    by_cases hb : p b = true
    · rw [List.find?_cons_of_pos l hb] at h
      cases h
      exact ⟨hb, [], l, rfl, by simp⟩
    · have hb' : ¬ p b := hb
      rw [List.find?_cons_of_neg l hb'] at h
      rcases ih h with ⟨hpa, l1, l2, hl, hl1⟩
      refine ⟨hpa, b :: l1, l2, by rw [hl, List.cons_append], ?_⟩
      intro x hx
      rcases List.mem_cons.mp hx with rfl | hx
      · exact Bool.eq_false_iff.mpr hb'
      · exact hl1 x hx

/-- When no frame matches any product, the segmentation loop returns the
products unchanged and raises nothing. -/
lemma runSegment_nomatch (vid : String) (frames : List FrameRec)
    (oracle : ProductInfo → Option String) (ps : List ProductInfo)
    (h : ∀ q ∈ ps, findNearFrame frames q = none) :
    runSegment vid frames oracle ps = (ps, none) := by
  induction ps with
  | nil => rfl
  | cons p ps ih =>
    simp [runSegment, h p (List.mem_cons_self p ps),
      ih (fun q hq => h q (List.mem_cons_of_mem p hq))]

/-! ### Claim C6 -/

/-- Claim C6: the Isolator matches a product to a frame iff the absolute
timestamp difference is strictly below 1.0; the first frame in list order
(ascending, by C9) among those within tolerance is the one chosen; when
no frame is within tolerance the products are left unchanged and no
error is set (the whole state is unchanged). -/
theorem c6_isolation (frames : List FrameRec) (p : ProductInfo) :
    ((findNearFrame frames p).isSome ↔
      ∃ f ∈ frames, |f.timestamp - p.timestamp| < 1) ∧
    (∀ f : FrameRec, findNearFrame frames p = some f →
      |f.timestamp - p.timestamp| < 1 ∧
      ∃ l1 l2, frames = l1 ++ f :: l2 ∧
        ∀ g ∈ l1, ¬ |g.timestamp - p.timestamp| < 1) ∧
    (∀ (oracle : ProductInfo → Option String) (s : PState),
      (∀ q ∈ s.products, findNearFrame s.frames q = none) →
      segmentProducts oracle s = s) := by
  refine ⟨by simp [findNearFrame, List.find?_isSome], fun f hf => ?_,
          fun oracle s hnone => ?_⟩
  · rcases find?_first _ frames f hf with ⟨hpf, l1, l2, hl, hl1⟩
    refine ⟨by simpa using hpf, l1, l2, hl, fun g hg => by simpa using hl1 g hg⟩
  · have hrun := runSegment_nomatch s.video_id s.frames oracle s.products hnone
    simp [segmentProducts, hrun]

/-- Witness state for C6: one frame at timestamp 0 and one product at
timestamp 5, out of tolerance. -/
def c6Frame : FrameRec :=
  { frame_number := 0, timestamp := 0, image_path := "output/frame_u_0.jpg",
    products_detected := [] }

/-- Witness product for C6. -/
def c6Prod : ProductInfo :=
  { name := "Lamp", confidence := 4/5, description := "a lamp",
    timestamp := 5 }

/-- Witness state for C6. -/
def c6State : PState :=
  { url := "u", video_id := "u", video_path := "output/video_u.mp4",
    frames := [c6Frame], products := [c6Prod], error := none }

/-- Witness for C6: with its only product out of tolerance of the only
frame, the segmentation stage leaves the state unchanged. -/
theorem c6_isolation_witness :
    segmentProducts (fun _ => none) c6State = c6State := by
  refine (c6_isolation c6State.frames c6Prod).2.2 (fun _ => none) c6State ?_
  intro q hq
  have hq' : q = c6Prod := by simpa [c6State] using hq
  subst hq'
  rw [findNearFrame, List.find?_eq_none]
  intro f hf
  have hf' : f = c6Frame := by simpa [c6State] using hf
  subst hf'
  simp only [decide_eq_true_eq]
  norm_num [c6Frame, c6Prod]

/-! ### Claim C7 -/

/-- When the enhancement loop raises nothing, it maps the per-product
effect over the products. -/
lemma runEnhance_of_no_error (oracle : ProductInfo → Option String)
    (ps : List ProductInfo) (h : (runEnhance oracle ps).2 = none) :
    (runEnhance oracle ps).1 = ps.map enhanceOne := by
  induction ps with
  | nil => rfl
  | cons p ps ih =>
    by_cases hseg : p.segmented_image_path = ""
    · rw [runEnhance, if_pos hseg] at h ⊢
      simp only [List.map_cons] at h ⊢
      rw [enhanceOne, if_pos hseg]
      exact congrArg _ (ih h)
    · rw [runEnhance, if_neg hseg] at h ⊢
      cases ho : oracle p with
      | some e => rw [ho] at h; simp at h
      | none =>
        rw [ho] at h
        show enhanceOne p :: (runEnhance oracle ps).1
          = List.map enhanceOne (p :: ps)
        rw [List.map_cons]
        exact congrArg _ (ih h)

/-- Claim C7: after the Enhancer runs without error, every product with a
non-empty isolated path carries exactly the three style-ordered enhanced
paths, and every product with an empty isolated path is skipped
unchanged (its enhanced list stays as it was, empty for detector-created
products). -/
theorem c7_enhancement (oracle : ProductInfo → Option String) (s : PState)
    (h : (runEnhance oracle s.products).2 = none) :
    (enhanceProducts oracle s).products = s.products.map enhanceOne ∧
    (enhanceProducts oracle s).error = s.error ∧
    ∀ p : ProductInfo,
      (p.segmented_image_path ≠ "" →
        (enhanceOne p).enhanced_images = enhancedPaths p ∧
        (enhanceOne p).enhanced_images.length = 3) ∧
      (p.segmented_image_path = "" → enhanceOne p = p) := by
  refine ⟨by simp [enhanceProducts, runEnhance_of_no_error oracle s.products h],
          by simp [enhanceProducts, h],
          fun p => ⟨fun hne => ?_, fun hseg => by rw [enhanceOne, if_pos hseg]⟩⟩
  rw [enhanceOne, if_neg hne]
  exact ⟨rfl, by simp [enhancedPaths]⟩

/-- Witness products and state for C7: one isolated product and one that
was never isolated. -/
def c7ProdIso : ProductInfo :=
  { name := "Mug", confidence := 7/10, description := "a mug",
    timestamp := 2, frame_image_path := "/output/frame_u_0.jpg",
    segmented_image_path := "/output/segmented_Mug_2.jpg" }

/-- Witness product for C7 with no isolated image. -/
def c7ProdRaw : ProductInfo :=
  { name := "Pen", confidence := 3/5, description := "a pen",
    timestamp := 4 }

/-- Witness state for C7. -/
def c7State : PState :=
  { url := "u", video_id := "u", video_path := "output/video_u.mp4",
    frames := [], products := [c7ProdIso, c7ProdRaw], error := none }

/-- Witness for C7: on the witness state the error-free Enhancer maps the
per-product effect over both products. -/
theorem c7_enhancement_witness :
    (enhanceProducts (fun _ => none) c7State).products
      = c7State.products.map enhanceOne :=
  (c7_enhancement (fun _ => none) c7State (by rfl)).1

/-! ### Claim C9 -/

/-- A nonzero stride forces a positive frame rate. -/
lemma fps_pos_of_stride (fps : ℚ) (h : frameStride fps ≠ 0) : 0 < fps := by
  by_contra hle
  push_neg at hle
  apply h
  rw [frameStride, pyInt]
  by_cases hneg : fps * 2 < 0
  · rw [if_pos hneg]
    rw [Int.toNat_eq_zero]
    simp only [neg_nonpos]
    exact Int.floor_nonneg.mpr (by linarith)
  · rw [if_neg hneg]
    rw [Int.toNat_eq_zero]
    have h2 : fps * 2 ≤ 0 := by linarith
    calc ⌊fps * 2⌋ ≤ ⌊(0 : ℚ)⌋ := Int.floor_le_floor h2
    _ = 0 := Int.floor_zero

/-- Claim C9: when the Sampler succeeds, every sampled frame index is a
multiple of the computed stride and the frame sequence is strictly
ascending both by frame index and by timestamp. -/
theorem c9_sampling (fps : ℚ) (count : Nat) (s : PState)
    (h : (extractFrames fps count s).error = none) :
    (∀ f ∈ (extractFrames fps count s).frames,
        frameStride fps ∣ f.frame_number) ∧
    ((extractFrames fps count s).frames).Pairwise
      (fun a b => a.frame_number < b.frame_number ∧
        a.timestamp < b.timestamp) := by
  rw [extractFrames] at h ⊢
  by_cases h0 : fps = 0
  · rw [if_pos h0] at h
    simp at h
  rw [if_neg h0] at h ⊢
  by_cases hs : frameStride fps = 0
  · rw [if_pos hs] at h ⊢
    by_cases hc : count = 0
    · rw [if_pos hc]
      simp
    · rw [if_neg hc] at h
      simp at h
  · rw [if_neg hs]
    have hfps : 0 < fps := fps_pos_of_stride fps hs
    constructor
    · intro f hf
      simp only [sampleFrames, List.mem_map, List.mem_filter,
        Nat.beq_eq_true_eq] at hf
      rcases hf with ⟨n, ⟨_, hmod⟩, rfl⟩
      exact Nat.dvd_of_mod_eq_zero hmod
    · rw [sampleFrames, List.pairwise_map]
      refine List.Pairwise.imp ?_
        ((List.pairwise_lt_range count).filter _)
      intro a b hab
      exact ⟨hab, by
        apply div_lt_div_of_pos_right ?_ hfps
        exact_mod_cast hab⟩

/-- Witness for C9, on a 3-frame stream at 1 fps. -/
theorem c9_sampling_witness :
    (∀ f ∈ (extractFrames 1 3 (initState "u")).frames,
        frameStride 1 ∣ f.frame_number) ∧
    ((extractFrames 1 3 (initState "u")).frames).Pairwise
      (fun a b => a.frame_number < b.frame_number ∧
        a.timestamp < b.timestamp) :=
  c9_sampling 1 3 (initState "u") (by norm_num [extractFrames, frameStride,
    pyInt, initState])

/-! ### Claim C2 -/

/-- Counterexample to C2 as stated: at the common NTSC frame rate 29.97
the code computes int(29.97 * 2) = 59 while round(29.97 * 2) = 60, and at
frame rate 0.25 the computed stride is 0, below the claimed minimum of
1. -/
theorem c2_counterexample :
    frameStride (2997/100) = 59 ∧
    round (((2997 : ℚ)/100) * 2) = 60 ∧
    frameStride (1/4) = 0 := by
  refine ⟨?_, ?_, ?_⟩
  · have hf : ⌊(2997 : ℚ)/100 * 2⌋ = 59 := by
      rw [Int.floor_eq_iff]
      norm_num
    rw [frameStride, pyInt, if_neg (by norm_num), hf]
    rfl
  · rw [round_eq]
    have hf : ⌊(2997 : ℚ)/100 * 2 + 1/2⌋ = 60 := by
      rw [Int.floor_eq_iff]
      norm_num
    rw [hf]
  · have hf : ⌊(1 : ℚ)/4 * 2⌋ = 0 := by
      rw [Int.floor_eq_iff]
      norm_num
    rw [frameStride, pyInt, if_neg (by norm_num), hf]
    rfl

/-- Claim C2, amended: the stride is the truncation int(frameRate * 2.0),
not a rounding, and no minimum of 1 is enforced: for frame rates of at
least 0.5 the stride is at least 1, but for a positive frame rate below
0.5 the stride is 0 and the Sampler then fails with an error on any
nonempty stream (leaving the frames unchanged) instead of sampling. -/
theorem c2_stride (fps : ℚ) (h0 : 0 ≤ fps) :
    frameStride fps = (⌊fps * 2⌋).toNat ∧
    ((1 : ℚ)/2 ≤ fps → 1 ≤ frameStride fps) ∧
    (fps < 1/2 → frameStride fps = 0) ∧
    (0 < fps → fps < 1/2 → ∀ count : Nat, count ≠ 0 → ∀ s : PState,
      (extractFrames fps count s).error =
        some "Frame extraction failed: integer modulo by zero" ∧
      (extractFrames fps count s).frames = s.frames) := by
  have h02 : (0 : ℚ) ≤ fps * 2 := mul_nonneg h0 (by norm_num)
  have heq : frameStride fps = (⌊fps * 2⌋).toNat := by
    rw [frameStride, pyInt, if_neg (not_lt.mpr h02)]
  have hz : fps < 1/2 → frameStride fps = 0 := by
    intro hlt
    rw [heq]
    have : ⌊fps * 2⌋ = 0 :=
      Int.floor_eq_zero_iff.mpr ⟨h02, by linarith⟩
    simp [this]
  refine ⟨heq, fun hhalf => ?_, hz, fun hpos hlt count hc s => ?_⟩
  · rw [heq]
    have h1 : (1 : ℤ) ≤ ⌊fps * 2⌋ := Int.le_floor.mpr (by push_cast; linarith)
    omega
  · rw [extractFrames, if_neg (ne_of_gt hpos), if_pos (hz hlt), if_neg hc]
    exact ⟨rfl, rfl⟩

/-- Witness for C2 amended: at frame rate 0.25 and a 1-frame stream, the
Sampler fails with the modulo error. -/
theorem c2_stride_witness :
    (extractFrames (1/4) 1 (initState "u")).error =
      some "Frame extraction failed: integer modulo by zero" :=
  ((c2_stride (1/4) (by norm_num)).2.2.2 (by norm_num) (by norm_num)
    1 (by norm_num) (initState "u")).1

/-! ### Claim C10 -/

/-- Every product appended while processing one frame carries that
frame's timestamp, on both the parsed and the fallback path. -/
lemma detectInFrame_timestamp (resp : VisionResponse) (ts : ℚ)
    (p : ProductInfo) (hp : p ∈ detectInFrame resp ts) : p.timestamp = ts := by
  cases resp with
  | parsed cs =>
    rcases (mem_detectParsed cs ts p).mp hp with ⟨c, _, _, rfl⟩
    rfl
  | unparsed raw =>
    cases hf : fallbackFires raw with
    | true =>
      simp only [detectInFrame, hf, if_pos, List.mem_singleton] at hp
      rw [hp]
      rfl
    | false => simp [detectInFrame, hf] at hp

/-- The detection loop never changes the timestamps of the frame
sequence, even when it stops early on an exception. -/
lemma runDetect_frames_ts (oracle : FrameRec → Except String VisionResponse)
    (fs : List FrameRec) :
    ((runDetect oracle fs).1).map (fun f => f.timestamp)
      = fs.map (fun f => f.timestamp) := by
  induction fs with
  | nil => rfl
  | cons f fs ih =>
    rw [runDetect]
    cases ho : oracle f with
    | error e => rfl
    | ok resp => simp [List.map_cons, ih]

/-- Every product the detection loop appends carries the timestamp of a
frame present in the loop's output frame sequence. -/
lemma mem_runDetect_products (oracle : FrameRec → Except String VisionResponse)
    (fs : List FrameRec) (p : ProductInfo)
    (hp : p ∈ (runDetect oracle fs).2.1) :
    ∃ f ∈ (runDetect oracle fs).1, f.timestamp = p.timestamp := by
  induction fs with
  | nil => simp [runDetect] at hp
  | cons f fs ih =>
    rw [runDetect] at hp ⊢
    cases ho : oracle f with
    | error e =>
      rw [ho] at hp
      simp at hp
    | ok resp =>
      rw [ho] at hp
      simp only [List.mem_append] at hp
      rcases hp with hp | hp
      · have := detectInFrame_timestamp resp f.timestamp p hp
        exact ⟨{ f with products_detected :=
                  f.products_detected ++ detectInFrame resp f.timestamp },
               List.mem_cons_self _ _, this.symm⟩
      · rcases ih hp with ⟨g, hg, hts⟩
        exact ⟨g, List.mem_cons_of_mem _ hg, hts⟩

/-- Claim C10: every detector-created product has timestamp equal to that
of its originating frame, which is still in the frame sequence; hence the
Isolator's frame search cannot come up empty for such products. -/
theorem c10_correlation (oracle : FrameRec → Except String VisionResponse)
    (s : PState) (h : s.products = []) :
    ∀ p ∈ (identifyProducts oracle s).products,
      (∃ f ∈ (identifyProducts oracle s).frames,
        f.timestamp = p.timestamp ∧ |f.timestamp - p.timestamp| < 1) ∧
      findNearFrame (identifyProducts oracle s).frames p ≠ none := by
  intro p hp
  have hp' : p ∈ (runDetect oracle s.frames).2.1 := by
    simpa [identifyProducts, h] using hp
  rcases mem_runDetect_products oracle s.frames p hp' with ⟨f, hf, hts⟩
  have hmem : f ∈ (identifyProducts oracle s).frames := by
    simpa [identifyProducts] using hf
  have habs : |f.timestamp - p.timestamp| < 1 := by
    rw [hts, sub_self, abs_zero]
    norm_num
  refine ⟨⟨f, hmem, hts, habs⟩, ?_⟩
  rw [findNearFrame]
  intro hnone
  rw [List.find?_eq_none] at hnone
  exact hnone f hmem (decide_eq_true habs)

/-- Witness frame for C10. -/
def c10Frame : FrameRec :=
  { frame_number := 0, timestamp := 0, image_path := "output/frame_u_0.jpg",
    products_detected := [] }

/-- Witness state for C10. -/
def c10State : PState :=
  { url := "u", video_id := "u", video_path := "output/video_u.mp4",
    frames := [c10Frame], products := [], error := none }

/-- Witness oracle for C10: an unparsable response naming a keyword. -/
def c10Oracle (_f : FrameRec) : Except String VisionResponse :=
  .ok (.unparsed "a product")

/-- Witness for C10: for the product synthesized by the fallback, the
frame search of the Isolator succeeds. -/
theorem c10_correlation_witness :
    findNearFrame (identifyProducts c10Oracle c10State).frames
      (fallbackProduct "a product" 0) ≠ none :=
  (c10_correlation c10Oracle c10State rfl (fallbackProduct "a product" 0)
    (by
      have hff : fallbackFires "a product" = true := by decide
      simp [identifyProducts, runDetect, c10State, c10Oracle, detectInFrame,
        hff, c10Frame])).2

/-! ### Claim C1 -/

/-- Claim C1, amended: no stage checks the error field before doing its
work — each stage behaves on an errored state exactly as on a clean one
and may overwrite a previously recorded error with its own — but the
error field, once set, is never cleared back to the absent state, so a
failed run still terminates in failure. -/
theorem c1_amended :
    (∀ (fe : Bool) (ferr : Option String) (s : PState), s.error.isSome →
      ((extractVideo fe ferr s).error).isSome) ∧
    (∀ (fps : ℚ) (count : Nat) (s : PState), s.error.isSome →
      ((extractFrames fps count s).error).isSome) ∧
    (∀ (oracle : FrameRec → Except String VisionResponse) (s : PState),
      s.error.isSome → ((identifyProducts oracle s).error).isSome) ∧
    (∀ (oracle : ProductInfo → Option String) (s : PState),
      s.error.isSome → ((segmentProducts oracle s).error).isSome) ∧
    (∀ (oracle : ProductInfo → Option String) (s : PState),
      s.error.isSome → ((enhanceProducts oracle s).error).isSome) ∧
    (∀ (oracle : FrameRec → Except String VisionResponse) (s : PState)
        (e : Option String),
      (identifyProducts oracle { s with error := e }).products
        = (identifyProducts oracle { s with error := none }).products) ∧
    (∀ (oracle : ProductInfo → Option String) (s : PState)
        (e : Option String),
      (segmentProducts oracle { s with error := e }).products
        = (segmentProducts oracle { s with error := none }).products) ∧
    (∀ (oracle : ProductInfo → Option String) (s : PState)
        (e : Option String),
      (enhanceProducts oracle { s with error := e }).products
        = (enhanceProducts oracle { s with error := none }).products) := by
  refine ⟨fun fe ferr s h => ?_, fun fps count s h => ?_,
          fun oracle s h => ?_, fun oracle s h => ?_, fun oracle s h => ?_,
          fun _ _ _ => rfl, fun _ _ _ => rfl, fun _ _ _ => rfl⟩
  · cases fe <;> cases ferr <;> simp [extractVideo, h]
  · by_cases h0 : fps = 0
    · simp [extractFrames, h0]
    · by_cases hs : frameStride fps = 0
      · by_cases hc : count = 0 <;> simp [extractFrames, h0, hs, hc, h]
      · simp [extractFrames, h0, hs, h]
  · cases hr : (runDetect oracle s.frames).2.2 <;>
      simp [identifyProducts, hr, h]
  · cases hr : (runSegment s.video_id s.frames oracle s.products).2 <;>
      simp [segmentProducts, hr, h]
  · cases hr : (runEnhance oracle s.products).2 <;>
      simp [enhanceProducts, hr, h]

/-- Witness state for C1 amended: an error already recorded. -/
def c1ErrState : PState :=
  { initState "u" with error := some "Video extraction failed: x" }

/-- Witness for C1 amended: the Detector keeps the error set. -/
theorem c1_amended_witness :
    ((identifyProducts (fun _ => .ok (.parsed [])) c1ErrState).error).isSome :=
  c1_amended.2.2.1 (fun _ => .ok (.parsed [])) c1ErrState (by rfl)

/-- Counterexample run for C1: source URL of the run. -/
def c1Url : String := "https://youtu.be/ABC"

/-- Counterexample run for C1: the one candidate the collaborator reports
on the first frame. -/
def c1Cand : Candidate :=
  { name := "Gizmo", confidence := 9/10, description := "a gizmo",
    is_good_frame := true }

/-- Counterexample run for C1: the vision collaborator answers the first
frame with a parsed detection and raises on the second frame. -/
def c1Detect (f : FrameRec) : Except String VisionResponse :=
  if f.frame_number = 0 then .ok (.parsed [c1Cand]) else .error "boom"

/-- Counterexample run for C1: collaborator behaviors of the run — the
video file is already cached, the stream reports 1 fps and yields 3
frames, detection fails on the second sampled frame, the later stages
raise nothing. -/
def c1Oracles : Oracles :=
  { fileExists := true, fetchErr := none, fps := 1, frameCount := 3,
    detect := c1Detect, segment := fun _ => none, enhance := fun _ => none }

/-- State of the C1 run after Acquisition. -/
def c1S1 : PState :=
  { url := c1Url, video_id := "ABC", video_path := "output/video_ABC.mp4",
    frames := [], products := [], error := none }

/-- First sampled frame of the C1 run. -/
def c1f0 : FrameRec :=
  { frame_number := 0, timestamp := 0, image_path := "output/frame_ABC_0.jpg",
    products_detected := [] }

/-- Second sampled frame of the C1 run. -/
def c1f2 : FrameRec :=
  { frame_number := 2, timestamp := 2, image_path := "output/frame_ABC_2.jpg",
    products_detected := [] }

/-- State of the C1 run after the Sampler. -/
def c1S2 : PState := { c1S1 with frames := [c1f0, c1f2] }

/-- The product the Detector creates before failing. -/
def c1Prod : ProductInfo :=
  { name := "Gizmo", confidence := 9/10, description := "a gizmo",
    timestamp := 0 }

/-- State of the C1 run at failure time: the Detector has recorded its
error; the one product created so far has empty image paths. -/
def c1S3 : PState :=
  { c1S2 with
    frames := [{ c1f0 with products_detected := [c1Prod] }, c1f2],
    products := [c1Prod],
    error := some "Product identification failed: boom" }

/-- The same product after the Isolator nevertheless mutated it. -/
def c1ProdSeg : ProductInfo :=
  { c1Prod with segmented_image_path := "/output/segmented_Gizmo_0.jpg",
                frame_image_path := "/output/frame_ABC_0.jpg" }

/-- State of the C1 run after the Isolator. -/
def c1S4 : PState := { c1S3 with products := [c1ProdSeg] }

/-- The same product after the Enhancer also mutated it. -/
def c1ProdEnh : ProductInfo :=
  { c1ProdSeg with enhanced_images :=
      ["/output/enhanced_Gizmo_1_0.jpg", "/output/enhanced_Gizmo_2_0.jpg",
       "/output/enhanced_Gizmo_3_0.jpg"] }

/-- Final state of the C1 run. -/
def c1S5 : PState := { c1S4 with products := [c1ProdEnh] }

/-- Counterexample to C1 as stated: in this concrete run the Detector
stage sets the error with the single created product still unisolated
(empty paths, no enhanced images), yet the finished run shows the
Isolator and Enhancer were not no-ops: they mutated the product after
the failure, setting its segmented path and three enhanced paths. -/
theorem c1_counterexample :
    identifyProducts c1Oracles.detect
        (extractFrames c1Oracles.fps c1Oracles.frameCount
          (extractVideo c1Oracles.fileExists c1Oracles.fetchErr
            (initState c1Url))) = c1S3 ∧
    c1S3.error = some "Product identification failed: boom" ∧
    c1S3.products.map (fun p => p.segmented_image_path) = [""] ∧
    c1S3.products.map (fun p => p.enhanced_images) = [[]] ∧
    runPipeline c1Oracles c1Url = c1S5 ∧
    c1S5.error = some "Product identification failed: boom" ∧
    c1S5.products.map (fun p => p.segmented_image_path)
      = ["/output/segmented_Gizmo_0.jpg"] ∧
    c1S5.products.map (fun p => List.length p.enhanced_images) = [3] := by
  have h1 : extractVideo c1Oracles.fileExists c1Oracles.fetchErr
      (initState c1Url) = c1S1 := by decide
  have h2 : extractFrames c1Oracles.fps c1Oracles.frameCount c1S1 = c1S2 := by
    have hr : List.range 3 = [0, 1, 2] := by decide
    simp [c1Oracles, extractFrames, frameStride, pyInt, sampleFrames, hr,
      c1S1, c1S2, c1f0, c1f2]
    norm_num
    all_goals decide
  have h3 : identifyProducts c1Oracles.detect c1S2 = c1S3 := by
    simp [c1Oracles, identifyProducts, runDetect, c1Detect, c1S2, c1S1,
      c1f0, c1f2, detectInFrame, detectParsed, candidateToProduct, c1Cand,
      c1S3, c1Prod]
    norm_num
  have h4 : segmentProducts c1Oracles.segment c1S3 = c1S4 := by
    simp [c1Oracles, segmentProducts, runSegment, findNearFrame, segmentSet,
      c1S3, c1S2, c1S1, c1f0, c1f2, c1Prod, c1S4, c1ProdSeg, List.find?,
      pathSafeName, pyInt]
    all_goals decide
  have h5 : enhanceProducts c1Oracles.enhance c1S4 = c1S5 := by
    simp [c1Oracles, enhanceProducts, runEnhance, enhanceOne, enhancedPaths,
      c1S4, c1S3, c1S2, c1S1, c1ProdSeg, c1Prod, c1S5, c1ProdEnh,
      pathSafeName, pyInt]
    all_goals decide
  refine ⟨by rw [h1, h2, h3], by decide, by decide, by decide, ?_,
          by decide, by decide, by decide⟩
  show enhanceProducts c1Oracles.enhance
    (segmentProducts c1Oracles.segment
      (identifyProducts c1Oracles.detect
        (extractFrames c1Oracles.fps c1Oracles.frameCount
          (extractVideo c1Oracles.fileExists c1Oracles.fetchErr
            (initState c1Url))))) = c1S5
  rw [h1, h2, h3, h4, h5]

end Pipeline
